import Mathlib

/-!
Verification of the altruist-rs sensor firmware core (src/src/sensors/*)
against its natural-language specification.

Shallow embedding conventions:
* Rust machine integers are modelled as `Int`/`Nat`; wrap-around of `i32`,
  `i64`, `u16` arithmetic (release-mode Rust wraps on overflow) is made
  explicit with `wrap32`, `wrap64` and `% 65536`.
* Rust `>>` on signed integers is an arithmetic shift, i.e. floor division
  by a power of two (`sar`); `<<` multiplies and wraps.
* Rust `/` on signed integers truncates toward zero: `Int.tdiv`.
* `f32` values are modelled as exact rationals (`ℚ`): every float produced
  by this code is an integer divided by a fixed power-of-ten/two scale and
  every comparison in the code happens at boundaries that are exactly
  representable, so the rational model is faithful to the comparisons made.
* Asynchronous bus I/O is modelled by passing the bytes that arrived (or
  the failure) as explicit arguments; clocks are modelled by explicit
  `now : Nat` millisecond parameters.
-/

/-- Two's-complement wrap-around into the signed 32-bit range,
modelling release-mode Rust `i32` arithmetic. -/
def wrap32 (x : Int) : Int := (x + 2 ^ 31) % 2 ^ 32 - 2 ^ 31

/-- Two's-complement wrap-around into the signed 64-bit range,
modelling release-mode Rust `i64` arithmetic. -/
def wrap64 (x : Int) : Int := (x + 2 ^ 63) % 2 ^ 64 - 2 ^ 63

/-- Arithmetic shift right: floor division by `2 ^ k`, the semantics of
Rust `>>` on signed integers. -/
def sar (x : Int) (k : Nat) : Int := x / 2 ^ k

/-! ## Data model (src/src/sensors/mod.rs) -/

/-- All supported sensor types (mod.rs `SensorType`). -/
inductive SensorType where
  | BME280
  | BME680
  | SHT30
  | SDS011
  | PMS7003
  | ME2CO
  | SCD4X
  | SGP30
  | RadSens
  | ICS43434
  | GPS
  | AnalogSensor
deriving DecidableEq

/-- Data quality indicator (mod.rs `Quality`). -/
inductive Quality where
  | Good
  | Degraded
  | Bad
deriving DecidableEq

/-- All possible sensor data variants (mod.rs `SensorData`); `f32`/`f64`
fields are modelled as exact rationals, the static `units` string of the
`Analog` variant is dropped. -/
inductive SensorData where
  | Environmental (temperature humidity pressure gas_resistance : Option ℚ)
  | AirQuality (pm25 pm10 : Option ℚ)
  | Gas (co_ppm : Option ℚ) (co2_ppm : Option Nat) (voc_index : Option ℚ)
  | Radiation (dose_rate : ℚ) (total_dose : Option ℚ)
  | Noise (db_a : ℚ) (db_c : Option ℚ) (frequency_data : Option (List ℚ))
  | Location (latitude longitude : ℚ) (altitude : Option ℚ) (satellites : Option Nat)
  | Analog (voltage : ℚ) (raw_value : Nat) (converted_value : Option ℚ)
deriving DecidableEq

/-- Unified error type for all sensors (mod.rs `SensorError`). -/
inductive SensorError where
  | NotInitialized
  | CommunicationError
  | InvalidData
  | Timeout
  | CalibrationRequired
  | HardwareFailure
  | WarmingUp
  | ConfigError
deriving DecidableEq

/-- Sensor reading with timestamp and quality (mod.rs `SensorReading`). -/
structure SensorReading where
  sensor_type : SensorType
  data : SensorData
  timestamp : Nat
  quality : Quality
deriving DecidableEq

/-- mod.rs `SensorReading::current_timestamp`: the source's placeholder
clock literally returns `0` ("For now, use a simple counter" / TODO). -/
def currentTimestamp : Nat := 0

/-- mod.rs `SensorReading::new`: builds a reading, stamping it with
`current_timestamp()`. -/
def SensorReading.new (sensor_type : SensorType) (data : SensorData)
    (quality : Quality) : SensorReading :=
  { sensor_type := sensor_type, data := data,
    timestamp := currentTimestamp, quality := quality }

/-- mod.rs `SensorReading::is_valid`: `self.quality != Quality::Bad`. -/
def SensorReading.is_valid (r : SensorReading) : Bool :=
  decide (r.quality ≠ Quality.Bad)

/-! ## BME280 driver (src/src/sensors/bme280.rs) -/

/-- Calibration coefficients of the BME280 (fields `dig_t1` … `dig_h6` of
`Bme280Sensor`); `dig_t1`, `dig_p1` are `u16`, `dig_h1`, `dig_h3` are `u8`,
`dig_h6` is `i8`, the rest are `i16`. -/
structure Bme280Calib where
  digT1 : Int
  digT2 : Int
  digT3 : Int
  digP1 : Int
  digP2 : Int
  digP3 : Int
  digP4 : Int
  digP5 : Int
  digP6 : Int
  digP7 : Int
  digP8 : Int
  digP9 : Int
  digH1 : Int
  digH2 : Int
  digH3 : Int
  digH4 : Int
  digH5 : Int
  digH6 : Int
deriving DecidableEq

/-- bme280.rs `compensate_temperature`: returns the pair
`(t_fine, (t_fine * 5 + 128) >> 8)`; the f32 result of the source is this
second component divided by `100.0`.  Note `self.dig_t1 << 1` is a `u16`
shift in the source, so it wraps modulo `2 ^ 16` before the `as i32` cast. -/
def compensate_temperature (c : Bme280Calib) (adc_t : Nat) : Int × Int :=
  let a3 : Int := wrap32 ((adc_t : Int) / 2 ^ 3)
  let t1shl : Int := (2 * c.digT1) % 65536
  let var1 : Int := sar (wrap32 ((a3 - t1shl) * c.digT2)) 11
  let a4 : Int := wrap32 ((adc_t : Int) / 2 ^ 4)
  let d : Int := wrap32 (a4 - c.digT1)
  let var2 : Int := sar (wrap32 (sar (wrap32 (d * d)) 12 * c.digT3)) 14
  let tFine : Int := wrap32 (var1 + var2)
  (tFine, sar (wrap32 (tFine * 5 + 128)) 8)

/-- Modelled from the spec: the Bosch reference fixed-point temperature
compensation (`BME280_compensate_T_int32` of the BME280 datasheet), which
the spec says the code matches; it widens `dig_T1` to 32 bits before the
left shift. -/
def bosch_compensate_temperature (c : Bme280Calib) (adc_t : Nat) : Int × Int :=
  let a3 : Int := wrap32 ((adc_t : Int) / 2 ^ 3)
  let t1shl : Int := wrap32 (2 * c.digT1)
  let var1 : Int := sar (wrap32 ((a3 - t1shl) * c.digT2)) 11
  let a4 : Int := wrap32 ((adc_t : Int) / 2 ^ 4)
  let d : Int := wrap32 (a4 - c.digT1)
  let var2 : Int := sar (wrap32 (sar (wrap32 (d * d)) 12 * c.digT3)) 14
  let tFine : Int := wrap32 (var1 + var2)
  (tFine, sar (wrap32 (tFine * 5 + 128)) 8)

/-- The `var1` denominator that bme280.rs `compensate_pressure` tests
against zero before dividing. -/
def pressure_var1 (c : Bme280Calib) (tFine : Int) : Int :=
  let v1 : Int := wrap64 (tFine - 128000)
  let v1 : Int := wrap64 (sar (wrap64 (v1 * v1 * c.digP3)) 8 + wrap64 (v1 * c.digP2 * 2 ^ 12))
  sar (wrap64 ((2 ^ 47 + v1) * c.digP1)) 33

/-- bme280.rs `compensate_pressure`: 64-bit fixed-point computation; the
result is the final `p` (Pa in Q24.8) divided by `25600.0`, giving hPa. -/
def compensate_pressure (c : Bme280Calib) (tFine : Int) (adc_p : Nat) : ℚ :=
  let v1 : Int := wrap64 (tFine - 128000)
  let v2 : Int := wrap64 (v1 * v1 * c.digP6)
  let v2 : Int := wrap64 (v2 + wrap64 (v1 * c.digP5 * 2 ^ 17))
  let v2 : Int := wrap64 (v2 + wrap64 (c.digP4 * 2 ^ 35))
  let v1 : Int := wrap64 (sar (wrap64 (v1 * v1 * c.digP3)) 8 + wrap64 (v1 * c.digP2 * 2 ^ 12))
  let v1 : Int := sar (wrap64 ((2 ^ 47 + v1) * c.digP1)) 33
  if v1 = 0 then 0
  else
    let p : Int := wrap64 (1048576 - (adc_p : Int))
    let p : Int := Int.tdiv (wrap64 ((wrap64 (p * 2 ^ 31) - v2) * 3125)) v1
    let v1f : Int := sar (wrap64 (c.digP9 * sar p 13 * sar p 13)) 25
    let v2f : Int := sar (wrap64 (c.digP8 * p)) 19
    let pf : Int := wrap64 (sar (wrap64 (p + v1f + v2f)) 8 + wrap64 (c.digP7 * 2 ^ 4))
    (pf : ℚ) / 25600

/-- Modelled from the spec: the Bosch reference 64-bit pressure
compensation (`BME280_compensate_P_int64` of the BME280 datasheet), with
the same final division by `25600.0` to obtain hPa. -/
def bosch_compensate_pressure (c : Bme280Calib) (tFine : Int) (adc_p : Nat) : ℚ :=
  let v1 : Int := wrap64 (tFine - 128000)
  let v2 : Int := wrap64 (v1 * v1 * c.digP6)
  let v2 : Int := wrap64 (v2 + wrap64 (v1 * c.digP5 * 2 ^ 17))
  let v2 : Int := wrap64 (v2 + wrap64 (c.digP4 * 2 ^ 35))
  let v1 : Int := wrap64 (sar (wrap64 (v1 * v1 * c.digP3)) 8 + wrap64 (v1 * c.digP2 * 2 ^ 12))
  let v1 : Int := sar (wrap64 ((2 ^ 47 + v1) * c.digP1)) 33
  if v1 = 0 then 0
  else
    let p : Int := wrap64 (1048576 - (adc_p : Int))
    let p : Int := Int.tdiv (wrap64 ((wrap64 (p * 2 ^ 31) - v2) * 3125)) v1
    let v1f : Int := sar (wrap64 (c.digP9 * sar p 13 * sar p 13)) 25
    let v2f : Int := sar (wrap64 (c.digP8 * p)) 19
    let pf : Int := wrap64 (sar (wrap64 (p + v1f + v2f)) 8 + wrap64 (c.digP7 * 2 ^ 4))
    (pf : ℚ) / 25600

/-- bme280.rs `compensate_humidity`, steps `h_var1` … `h_final`: the
intermediate humidity value after the clamp to `[0, 419430400]`, before
the final `>> 12` scaling.  Only evaluated when `v_x1_u32r ≠ 0`. -/
def humidity_intermediate (c : Bme280Calib) (tFine : Int) (adc_h : Nat) : Int :=
  let v : Int := wrap32 (tFine - 76800)
  let hv1 : Int := wrap32 ((adc_h : Int) - (wrap32 (c.digH4 * 2 ^ 12) + wrap32 (c.digH5 * v)))
  let hv2 : Int := sar (wrap32 (sar v 15 * sar v 15)) 7
  let hv3 : Int := sar (wrap32 (hv2 * c.digH1)) 4
  let hv4 : Int := sar (wrap32 (hv1 * c.digH3)) 14
  let hv5 : Int := sar (wrap32 (hv2 * c.digH6)) 4
  let hv6 : Int := wrap32 (hv4 * hv5)
  let hv7 : Int := sar (wrap32 (hv1 * wrap32 (hv3 + hv6 + 134217728))) 10
  let hv8 : Int := sar (wrap32 (hv7 * wrap32 (c.digH2 + 65536))) 13
  let hv9 : Int := wrap32 (hv8 - sar (wrap32 (sar (wrap32 (sar hv8 15 * sar hv8 15)) 7 * 25)) 9)
  let hf : Int := if hv9 < 0 then 0 else hv9
  if hf > 419430400 then 419430400 else hf

/-- bme280.rs `compensate_humidity`: returns `0.0` when `v_x1_u32r` is
zero, otherwise the clamped intermediate shifted right by 12 and divided
by `1024.0`. -/
def compensate_humidity (c : Bme280Calib) (tFine : Int) (adc_h : Nat) : ℚ :=
  if wrap32 (tFine - 76800) = 0 then 0
  else ((sar (humidity_intermediate c tFine adc_h) 12 : Int) : ℚ) / 1024

/-- Modelled from the spec: the Bosch reference humidity compensation
(`bme280_compensate_H_int32` of the BME280 datasheet), as the integer
Q22.10 result before the division by 1024. -/
def bosch_compensate_humidity_int (c : Bme280Calib) (tFine : Int) (adc_h : Nat) : Int :=
  let v : Int := wrap32 (tFine - 76800)
  let t1 : Int := sar (wrap32 (wrap32 ((adc_h : Int) * 2 ^ 14) - wrap32 (c.digH4 * 2 ^ 20) -
    wrap32 (c.digH5 * v) + 16384)) 15
  let t2 : Int := sar (wrap32 (wrap32 (sar (wrap32 (sar (wrap32 (v * c.digH6)) 10 *
    wrap32 (sar (wrap32 (v * c.digH3)) 11 + 32768))) 10 + 2097152) * c.digH2 + 8192)) 14
  let v2 : Int := wrap32 (t1 * t2)
  let v3 : Int := wrap32 (v2 - sar (wrap32 (sar (wrap32 (sar v2 15 * sar v2 15)) 7 * c.digH1)) 4)
  let v4 : Int := if v3 < 0 then 0 else v3
  let v4 : Int := if v4 > 419430400 then 419430400 else v4
  sar v4 12

/-- Modelled from the spec: the Bosch reference humidity compensation,
divided by `1024.0` to obtain %RH. -/
def bosch_compensate_humidity (c : Bme280Calib) (tFine : Int) (adc_h : Nat) : ℚ :=
  ((bosch_compensate_humidity_int c tFine adc_h : Int) : ℚ) / 1024

/-- bme280.rs `read_compensated_data`, raw pressure extraction from the
8-byte burst: `(data[0] << 12) | (data[1] << 4) | (data[2] >> 4)` (the
bit fields are disjoint for byte inputs, so `|` is `+`). -/
def raw_press (data : List Nat) : Nat :=
  data.getD 0 0 * 2 ^ 12 + data.getD 1 0 * 2 ^ 4 + data.getD 2 0 / 2 ^ 4

/-- bme280.rs `read_compensated_data`, raw temperature extraction:
`(data[3] << 12) | (data[4] << 4) | (data[5] >> 4)`. -/
def raw_temp (data : List Nat) : Nat :=
  data.getD 3 0 * 2 ^ 12 + data.getD 4 0 * 2 ^ 4 + data.getD 5 0 / 2 ^ 4

/-- bme280.rs `read_compensated_data`, raw humidity extraction:
`(data[6] << 8) | data[7]`. -/
def raw_hum (data : List Nat) : Nat :=
  data.getD 6 0 * 2 ^ 8 + data.getD 7 0

/-- bme280.rs `read_compensated_data`, compensation stage: temperature is
compensated first and the `t_fine` it stores on `self` is the one read by
the pressure and humidity compensations of the same read.  Returns
`(temperature, humidity, pressure)` as in the source. -/
def read_compensated_data (c : Bme280Calib) (data : List Nat) : ℚ × ℚ × ℚ :=
  let tf := compensate_temperature c (raw_temp data)
  ((tf.2 : ℚ) / 100,
   compensate_humidity c tf.1 (raw_hum data),
   compensate_pressure c tf.1 (raw_press data))

/-- bme280.rs `read`, validation stage: given the compensated
`(temperature, humidity, pressure)` triple of a successful
`read_compensated_data`, build the `SensorReading`. -/
def bme280_validate (temperature humidity pressure : ℚ) : SensorReading :=
  let temp_valid : Bool := decide (-40 ≤ temperature ∧ temperature ≤ 85)
  let hum_valid : Bool := decide (0 ≤ humidity ∧ humidity ≤ 100)
  let press_valid : Bool := decide (300 ≤ pressure ∧ pressure ≤ 1100)
  let quality := if temp_valid && hum_valid && press_valid then Quality.Good else Quality.Bad
  SensorReading.new SensorType.BME280
    (SensorData.Environmental
      (if temp_valid then some temperature else none)
      (if hum_valid then some humidity else none)
      (if press_valid then some pressure else none)
      none)
    quality

/-- Temperature and pressure calibration constants and raw ADC values of
the Bosch datasheet reference example (`dig_T1 = 27504 … dig_P9 = 6000`,
`adc_T = 519888`, `adc_P = 415148`, expected `25.08 °C` and
`100653.25 Pa`); the humidity constants, for which the datasheet has no
worked example, are representative mid-range module values. -/
def refCalib : Bme280Calib :=
  { digT1 := 27504, digT2 := 26435, digT3 := -1000,
    digP1 := 36477, digP2 := -10685, digP3 := 3024, digP4 := 2855, digP5 := 140,
    digP6 := -7, digP7 := 15500, digP8 := -14600, digP9 := 6000,
    digH1 := 75, digH2 := 353, digH3 := 0, digH4 := 340, digH5 := 0, digH6 := 30 }

/-- refCalib with `dig_T1 = 40000`, a legal `u16` calibration word on
which the code's `u16` shift of `dig_t1` wraps. -/
def refCalibT40000 : Bme280Calib := { refCalib with digT1 := 40000 }

/-- refCalib with `dig_P1 = 0`, which drives the pressure denominator
`var1` to zero. -/
def refCalibP0 : Bme280Calib := { refCalib with digP1 := 0 }

/-! ## ME2-CO driver (src/src/sensors/me2co.rs) -/

/-- me2co.rs `read`, checksum computation: `u8` wrapping sum of
`response[1..8]` (bytes 1 through 7), then `(!sum).wrapping_add(1)`,
i.e. the two's complement of the sum modulo 256. -/
def me2co_checksum (resp : List Nat) : Nat :=
  let sum := ((resp.drop 1).take 7).foldl (fun c b => (c + b) % 256) 0
  (255 - sum + 1) % 256

/-- me2co.rs `read`, response processing: `resp` is the list of response
bytes collected before the 1000 ms deadline (the source collects at most
9 into its buffer).  Fewer than 9 bytes is `Timeout`; then the header is
checked, the big-endian CO value of bytes 2–3 is extracted and scaled by
0.1, the checksum byte 8 is verified, and the [0, 1000] ppm range is
enforced, in source order. -/
def me2co_read (resp : List Nat) : Except SensorError SensorReading :=
  if resp.length < 9 then Except.error SensorError.Timeout
  else if resp.getD 0 0 ≠ 255 ∨ resp.getD 1 0 ≠ 134 then
    Except.error SensorError.InvalidData
  else
    let co_raw : Nat := 256 * resp.getD 2 0 + resp.getD 3 0
    let co_ppm : ℚ := (co_raw : ℚ) * (1 / 10)
    if me2co_checksum resp ≠ resp.getD 8 0 then Except.error SensorError.InvalidData
    else if co_ppm < 0 ∨ co_ppm > 1000 then Except.error SensorError.InvalidData
    else Except.ok (SensorReading.new SensorType.ME2CO
      (SensorData.Gas (some co_ppm) none none) Quality.Good)

/-! ## SDS011 driver (src/src/sensors/sds011.rs) -/

/-- sds011.rs `checksum_valid`: `u8` wrapping sum of payload bytes 0–5
must equal byte 6, and byte 7 must be `0xAB` (171). -/
def checksum_valid (d : List Nat) : Bool :=
  let checksum := ((List.range 6).map (fun i => d.getD i 0)).foldl (fun c b => (c + b) % 256) 0
  decide (d.getD 7 0 = 171) && decide (checksum = d.getD 6 0)

/-- sds011.rs `read_measurement`, stream scanning loop: `fuel` counts the
outer-loop iterations the 2 s acquisition deadline still allows (when it
reaches 0, or the byte stream is exhausted, the deadline expires and the
result is `Timeout`).  `pos` is `read_pos` in the 100-byte circular
buffer, `prev` the previously stored byte (`buffer[read_pos - 1]`).  On a
`{0xAA, 0xC0}` header the next 8 stream bytes are consumed as the
candidate payload: a valid payload yields the two little-endian raw
values, an invalid one is discarded and scanning continues. -/
def sds011_scan : Nat → Nat → Option Nat → List Nat → Except SensorError (Nat × Nat)
  | 0, _, _, _ => Except.error SensorError.Timeout
  | _ + 1, _, _, [] => Except.error SensorError.Timeout
  | fuel + 1, pos, prev, b :: rest =>
    if 0 < pos ∧ prev = some 170 ∧ b = 192 then
      if rest.length < 8 then Except.error SensorError.Timeout
      else if checksum_valid (rest.take 8) then
        Except.ok (rest.getD 0 0 + 256 * rest.getD 1 0, rest.getD 2 0 + 256 * rest.getD 3 0)
      else sds011_scan fuel ((pos + 1) % 100) (some b) (rest.drop 8)
    else sds011_scan fuel ((pos + 1) % 100) (some b) rest

/-- State of sds011.rs `Sds011Sensor` relevant to `read`:
`initialized`, `is_running`, `error_count` and `last_error_time`
(an `embassy_time::Instant`, modelled in milliseconds since boot). -/
structure Sds011State where
  initialized : Bool
  is_running : Bool
  error_count : Nat
  last_error_time : Option Nat
deriving DecidableEq

/-- sds011.rs `read`, error-count gate (lines 186–198): `none` means the
read short-circuits with `Timeout` (cooldown); otherwise the state with
which the read proceeds (counter and timestamp reset once 60 s have
elapsed since the last error). -/
def sds011_gate (s : Sds011State) (now : Nat) : Option Sds011State :=
  if 5 ≤ s.error_count then
    match s.last_error_time with
    | some t =>
      if now - t < 60000 then none
      else some { s with error_count := 0, last_error_time := none }
    | none => some s
  else some s

/-- sds011.rs `read`: the whole read step as a state transition.  `now`
models the `Instant::now()` calls of this read, `startResult` the outcome
of `cmd_start` (consulted only when the sensor is not running), and
`meas` the raw outcome of `read_measurement`'s scan (the pm values before
the `/ 10.0` scaling).  Returns the successor state and the result. -/
def sds011_read (s : Sds011State) (now : Nat) (startResult : Except SensorError Unit)
    (meas : Except SensorError (Nat × Nat)) : Sds011State × Except SensorError SensorReading :=
  if s.initialized = false then (s, Except.error SensorError.NotInitialized)
  else
    match sds011_gate s now with
    | none => (s, Except.error SensorError.Timeout)
    | some s1 =>
      let started : Sds011State × Option SensorError :=
        if s1.is_running then (s1, none)
        else
          match startResult with
          | Except.ok _ => ({ s1 with is_running := true }, none)
          | Except.error e =>
            ({ s1 with error_count := s1.error_count + 1, last_error_time := some now }, some e)
      match started with
      | (s2, some e) => (s2, Except.error e)
      | (s2, none) =>
        match meas with
        | Except.ok (r25, r10) =>
          let pm25 : ℚ := (r25 : ℚ) / 10
          let pm10 : ℚ := (r10 : ℚ) / 10
          if 0 ≤ pm25 ∧ pm25 < 1000 ∧ 0 ≤ pm10 ∧ pm10 < 1000 then
            ({ s2 with error_count := 0 },
             Except.ok (SensorReading.new SensorType.SDS011
               (SensorData.AirQuality (some pm25) (some pm10)) Quality.Good))
          else
            ({ s2 with error_count := s2.error_count + 1, last_error_time := some now },
             Except.error SensorError.InvalidData)
        | Except.error e =>
          ({ s2 with error_count := s2.error_count + 1, last_error_time := some now },
           Except.error e)

/-! ## Sensor manager, reading channel, acquisition loop
(src/src/sensors/manager.rs) -/

/-- manager.rs `SensorRegistry`: one registry entry. -/
structure SensorRegistry where
  sensor_type : SensorType
  task_spawned : Bool
  last_reading_time : Nat
  error_count : Nat
deriving DecidableEq

/-- manager.rs `SensorManager`: `heapless::Vec<SensorRegistry, 16>`,
modelled as a list whose length the operations keep at most 16. -/
structure SensorManager where
  registry : List SensorRegistry
deriving DecidableEq

/-- Capacity of the manager's `heapless::Vec` registry. -/
def REGISTRY_CAPACITY : Nat := 16

/-- Updates the first list element satisfying `p` (the semantics of
`iter_mut().find(...)` followed by a mutation), leaving the list
unchanged when no element matches. -/
def updateFirst (p : α → Bool) (f : α → α) : List α → List α
  | [] => []
  | x :: xs => if p x then f x :: xs else x :: updateFirst p f xs

/-- manager.rs `register_sensor`: `ConfigError` on a duplicate type or
when the 16-entry capacity is exhausted, otherwise pushes an entry with
`task_spawned = false`, `last_reading_time = 0`, `error_count = 0`. -/
def SensorManager.register_sensor (m : SensorManager) (t : SensorType) :
    SensorManager × Except SensorError Unit :=
  if m.registry.any (fun s => decide (s.sensor_type = t)) then
    (m, Except.error SensorError.ConfigError)
  else if m.registry.length < REGISTRY_CAPACITY then
    ({ registry := m.registry ++
        [{ sensor_type := t, task_spawned := false, last_reading_time := 0, error_count := 0 }] },
     Except.ok ())
  else (m, Except.error SensorError.ConfigError)

/-- manager.rs `mark_task_spawned`: sets `task_spawned` on the first
matching entry, silently doing nothing when the type is unregistered. -/
def SensorManager.mark_task_spawned (m : SensorManager) (t : SensorType) : SensorManager :=
  { registry := updateFirst (fun s => decide (s.sensor_type = t))
      (fun s => { s with task_spawned := true }) m.registry }

/-- manager.rs `update_sensor_stats`: updates `last_reading_time` and,
when `had_error`, increments `error_count` on the first matching entry;
silently does nothing when the type is unregistered. -/
def SensorManager.update_sensor_stats (m : SensorManager) (t : SensorType)
    (timestamp : Nat) (had_error : Bool) : SensorManager :=
  { registry := updateFirst (fun s => decide (s.sensor_type = t))
      (fun s =>
        { s with last_reading_time := timestamp,
                 error_count := s.error_count + (if had_error then 1 else 0) })
      m.registry }

/-- Capacity of `SENSOR_CHANNEL` (manager.rs line 10:
`Channel<CriticalSectionRawMutex, SensorReading, 32>`). -/
def CHANNEL_CAP : Nat := 32

/-- Modelled from the spec: the `embassy_sync` bounded FIFO channel
(library code, not under src/) as a list, oldest reading first;
`try_send` appends when fewer than `cap` readings are queued and fails
without blocking otherwise.  Returns the new queue and whether the send
succeeded. -/
def try_send (cap : Nat) (ch : List SensorReading) (r : SensorReading) :
    List SensorReading × Bool :=
  if ch.length < cap then (ch ++ [r], true) else (ch, false)

/-- Modelled from the spec: the single blocking receive of the
aggregator pops the oldest queued reading. -/
def channel_receive (ch : List SensorReading) : Option (SensorReading × List SensorReading) :=
  match ch with
  | [] => none
  | r :: rest => some (r, rest)

/-- Sends a sequence of readings through `try_send` in order; returns the
final queue and the number of readings dropped because the channel was
full. -/
def send_seq (cap : Nat) (ch : List SensorReading) :
    List SensorReading → List SensorReading × Nat
  | [] => (ch, 0)
  | r :: rs =>
    let t := try_send cap ch r
    let rec' := send_seq cap t.1 rs
    (rec'.1, rec'.2 + (if t.2 then 0 else 1))

/-- Which sleep the acquisition loop performs at the end of an
iteration: the normal `reading_interval()` sleep, or the fixed 60 s
backoff that `continue`s (skipping the interval sleep). -/
inductive SleepKind where
  | interval
  | backoff60
deriving DecidableEq

/-- manager.rs `sensor_task_impl`, one iteration of the main reading
loop: given the loop's consecutive-error counter, the channel queue and
the outcome of `sensor.read()`, returns the new counter, the new queue
and which sleep ends the iteration. -/
def sensor_task_step (consecutive_errors : Nat) (ch : List SensorReading)
    (result : Except SensorError SensorReading) : Nat × List SensorReading × SleepKind :=
  match result with
  | Except.ok r => (0, (try_send CHANNEL_CAP ch r).1, SleepKind.interval)
  | Except.error _ =>
    let c := consecutive_errors + 1
    if 3 < c then (c, ch, SleepKind.backoff60) else (c, ch, SleepKind.interval)

/-! ## Theorems -/

/-- Helper: `updateFirst` leaves a list unchanged when no element
satisfies the predicate. -/
theorem updateFirst_nomatch {α : Type} (p : α → Bool) (f : α → α) :
    ∀ l : List α, (∀ x ∈ l, p x = false) → updateFirst p f l = l := by
  intro l h
  induction l with
  | nil => rfl
  | cons x xs ih =>
    have hx : p x = false := h x (List.mem_cons_self x xs)
    simp only [updateFirst, hx, Bool.false_eq_true, if_false, List.cons.injEq, true_and]
    exact ih (fun y hy => h y (List.mem_cons_of_mem x hy))

/-- C10: `SensorReading::is_valid` returns true iff the reading's quality
is not `Bad`; in particular a `Degraded` reading is valid; and validity
depends only on the quality field, never on the data fields. -/
theorem is_valid_iff_not_bad :
    (∀ r : SensorReading, r.is_valid = true ↔ r.quality ≠ Quality.Bad) ∧
    (∀ r : SensorReading, r.quality = Quality.Degraded → r.is_valid = true) ∧
    (∀ r r' : SensorReading, r.quality = r'.quality → r.is_valid = r'.is_valid) := by
  refine ⟨fun r => ?_, fun r h => ?_, fun r r' h => ?_⟩
  · simp [SensorReading.is_valid]
  · simp [SensorReading.is_valid, h]
  · simp [SensorReading.is_valid, h]

/-- Witness for C10 at a concrete `Degraded` reading with no populated
data fields. -/
theorem is_valid_iff_not_bad_witness :
    (SensorReading.new SensorType.SDS011 (SensorData.AirQuality none none)
      Quality.Degraded).is_valid = true :=
  is_valid_iff_not_bad.2.1 _ rfl

/-- C5: the timestamp stored by `SensorReading::new` is the constant `0`
returned by the placeholder `current_timestamp`, for every construction;
it is not the current time in milliseconds since boot. -/
theorem sensor_reading_new_timestamp_zero :
    (∀ (t : SensorType) (d : SensorData) (q : Quality),
      (SensorReading.new t d q).timestamp = 0) ∧ currentTimestamp = 0 :=
  ⟨fun _ _ _ => rfl, rfl⟩

/-- C9: `register_sensor` rejects duplicates and a full registry with
`ConfigError` leaving the registry unchanged, otherwise appends a zeroed
entry; `mark_task_spawned` and `update_sensor_stats` are silent no-ops on
an unregistered type. -/
theorem register_and_stats_spec :
    (∀ (m : SensorManager) (t : SensorType),
      m.registry.any (fun s => decide (s.sensor_type = t)) = true →
      m.register_sensor t = (m, Except.error SensorError.ConfigError)) ∧
    (∀ (m : SensorManager) (t : SensorType),
      m.registry.any (fun s => decide (s.sensor_type = t)) = false →
      REGISTRY_CAPACITY ≤ m.registry.length →
      m.register_sensor t = (m, Except.error SensorError.ConfigError)) ∧
    (∀ (m : SensorManager) (t : SensorType),
      m.registry.any (fun s => decide (s.sensor_type = t)) = false →
      m.registry.length < REGISTRY_CAPACITY →
      m.register_sensor t =
        ({ registry := m.registry ++
            [{ sensor_type := t, task_spawned := false, last_reading_time := 0, error_count := 0 }] },
         Except.ok ())) ∧
    (∀ (m : SensorManager) (t : SensorType),
      (∀ s ∈ m.registry, s.sensor_type ≠ t) → m.mark_task_spawned t = m) ∧
    (∀ (m : SensorManager) (t : SensorType) (ts : Nat) (he : Bool),
      (∀ s ∈ m.registry, s.sensor_type ≠ t) → m.update_sensor_stats t ts he = m) := by
  refine ⟨fun m t h => ?_, fun m t h h2 => ?_, fun m t h h2 => ?_,
    fun m t h => ?_, fun m t ts he h => ?_⟩
  · simp [SensorManager.register_sensor, h]
  · simp [SensorManager.register_sensor, h, Nat.not_lt.mpr h2]
  · simp [SensorManager.register_sensor, h, h2]
  · obtain ⟨reg⟩ := m
    simp only [SensorManager.mark_task_spawned, SensorManager.mk.injEq]
    exact updateFirst_nomatch _ _ reg (fun x hx => by simpa using h x hx)
  · obtain ⟨reg⟩ := m
    simp only [SensorManager.update_sensor_stats, SensorManager.mk.injEq]
    exact updateFirst_nomatch _ _ reg (fun x hx => by simpa using h x hx)

/-- Witness for C9: registering into an empty registry succeeds with a
zeroed entry, and `update_sensor_stats` on the empty registry is a
no-op. -/
theorem register_and_stats_spec_witness :
    (SensorManager.mk []).register_sensor SensorType.BME280 =
      ({ registry := [{ sensor_type := SensorType.BME280, task_spawned := false, last_reading_time := 0, error_count := 0 }] },
       Except.ok ()) ∧
    (SensorManager.mk []).update_sensor_stats SensorType.SDS011 5 true =
      SensorManager.mk [] :=
  ⟨register_and_stats_spec.2.2.1 _ _ (by decide) (by decide),
   register_and_stats_spec.2.2.2.2 _ _ _ _ (by simp)⟩

/-- C7: one iteration of the generic acquisition loop: a successful read
resets the loop counter to 0, sends non-blockingly (appending when the
channel has room, dropping the reading when it is full) and sleeps the
normal interval; a failed read increments the counter, and backs off 60 s
(skipping the interval sleep) exactly when the counter exceeds 3. -/
theorem sensor_task_step_spec :
    (∀ (c : Nat) (ch : List SensorReading) (r : SensorReading),
      (sensor_task_step c ch (Except.ok r)).1 = 0 ∧
      (sensor_task_step c ch (Except.ok r)).2.2 = SleepKind.interval ∧
      (ch.length < CHANNEL_CAP → (sensor_task_step c ch (Except.ok r)).2.1 = ch ++ [r]) ∧
      (CHANNEL_CAP ≤ ch.length → (sensor_task_step c ch (Except.ok r)).2.1 = ch)) ∧
    (∀ (c : Nat) (ch : List SensorReading) (e : SensorError),
      3 < c + 1 → sensor_task_step c ch (Except.error e) = (c + 1, ch, SleepKind.backoff60)) ∧
    (∀ (c : Nat) (ch : List SensorReading) (e : SensorError),
      c + 1 ≤ 3 → sensor_task_step c ch (Except.error e) = (c + 1, ch, SleepKind.interval)) := by
  refine ⟨fun c ch r => ⟨rfl, rfl, fun h => ?_, fun h => ?_⟩,
    fun c ch e h => ?_, fun c ch e h => ?_⟩
  · simp [sensor_task_step, try_send, h]
  · simp [sensor_task_step, try_send, Nat.not_lt.mpr h]
  · simp [sensor_task_step, h]
  · simp [sensor_task_step, Nat.not_lt.mpr h]

/-- Witness for C7: a fourth consecutive failure triggers the 60 s
backoff, a third still sleeps the normal interval. -/
theorem sensor_task_step_spec_witness :
    sensor_task_step 3 [] (Except.error SensorError.Timeout) = (4, [], SleepKind.backoff60) ∧
    sensor_task_step 2 [] (Except.error SensorError.Timeout) = (3, [], SleepKind.interval) :=
  ⟨sensor_task_step_spec.2.1 3 [] SensorError.Timeout (by decide),
   sensor_task_step_spec.2.2 2 [] SensorError.Timeout (by decide)⟩

/-- Helper: the effect of sending a whole sequence through `try_send`,
starting from a queue within capacity: the queue fills up in order and
every further reading is dropped. -/
theorem send_seq_eq (cap : Nat) :
    ∀ (rs ch : List SensorReading), ch.length ≤ cap →
      send_seq cap ch rs =
        (ch ++ rs.take (cap - ch.length), rs.length - (cap - ch.length)) := by
  intro rs
  induction rs with
  | nil => intro ch h; simp [send_seq]
  | cons r rs ih =>
    intro ch h
    by_cases hlt : ch.length < cap
    · have hsend : try_send cap ch r = (ch ++ [r], true) := by simp [try_send, hlt]
      have hlen : (ch ++ [r]).length ≤ cap := by simp; omega
      have hrec := ih (ch ++ [r]) hlen
      simp only [send_seq, hsend, hrec, if_true, Prod.mk.injEq]
      have hk : cap - ch.length = (cap - (ch.length + 1)) + 1 := by omega
      constructor
      · rw [hk, List.take_succ_cons]
        simp
      · simp only [List.length_append, List.length_cons, List.length_nil]
        omega
    · have hfull : ch.length = cap := by omega
      have hsend : try_send cap ch r = (ch, false) := by simp [try_send, hlt]
      have hrec := ih ch h
      simp only [send_seq, hsend, hrec, Prod.mk.injEq]
      constructor
      · simp [hfull]
      · simp only [List.length_cons, Bool.false_eq_true, if_false]
        omega

/-- C8: the reading channel is a bounded FIFO of capacity 32 with a
non-blocking send: sending 33 readings before any receive retains the
first 32 in order, drops exactly one (the 33rd send fails on the full
queue), and the receives then pop the retained readings oldest first,
i.e. in the order they were sent. -/
theorem channel_backpressure (rs : List SensorReading) (h : rs.length = 33) :
    (send_seq CHANNEL_CAP [] rs).1 = rs.take 32 ∧
    (send_seq CHANNEL_CAP [] rs).2 = 1 ∧
    (∀ r : SensorReading, (try_send CHANNEL_CAP (rs.take 32) r).2 = false) ∧
    (∀ (r : SensorReading) (rest : List SensorReading),
      channel_receive (r :: rest) = some (r, rest)) := by
  have := send_seq_eq CHANNEL_CAP rs [] (by simp [CHANNEL_CAP])
  simp only [List.nil_append, List.length_nil, Nat.sub_zero] at this
  refine ⟨?_, ?_, fun r => ?_, fun r rest => rfl⟩
  · rw [this]
    simp [CHANNEL_CAP]
  · rw [this]
    simp [CHANNEL_CAP, h]
  · have hlen : (rs.take 32).length = 32 := by
      simp [List.length_take, h]
    simp [try_send, hlen, CHANNEL_CAP]

/-- Witness for C8 with 33 concrete readings. -/
theorem channel_backpressure_witness :
    (send_seq CHANNEL_CAP []
      (List.replicate 33 (SensorReading.new SensorType.BME280
        (SensorData.AirQuality none none) Quality.Good))).2 = 1 :=
  (channel_backpressure _ (by simp)).2.1

/-- Projection of the temperature field of an `Environmental` record. -/
def envTemperature : SensorData → Option ℚ
  | SensorData.Environmental t _ _ _ => t
  | _ => none

/-- Projection of the humidity field of an `Environmental` record. -/
def envHumidity : SensorData → Option ℚ
  | SensorData.Environmental _ h _ _ => h
  | _ => none

/-- Projection of the pressure field of an `Environmental` record. -/
def envPressure : SensorData → Option ℚ
  | SensorData.Environmental _ _ p _ => p
  | _ => none

/-- C2: for every compensated triple, the BME280 read keeps each field
exactly when it lies in its validity range (temperature [-40, 85] °C,
humidity [0, 100] %, pressure [300, 1100] hPa), a field outside its range
becomes `none`, and the quality is `Good` exactly when all three fields
are populated and `Bad` otherwise; in particular 95 °C with in-range
humidity and pressure yields `none` temperature, populated humidity and
pressure, and quality `Bad`. -/
theorem bme280_validate_spec :
    (∀ t h p : ℚ,
      (envTemperature (bme280_validate t h p).data = some t ↔ (-40 ≤ t ∧ t ≤ 85)) ∧
      (envHumidity (bme280_validate t h p).data = some h ↔ (0 ≤ h ∧ h ≤ 100)) ∧
      (envPressure (bme280_validate t h p).data = some p ↔ (300 ≤ p ∧ p ≤ 1100)) ∧
      (envTemperature (bme280_validate t h p).data = some t ∨
        envTemperature (bme280_validate t h p).data = none) ∧
      (envHumidity (bme280_validate t h p).data = some h ∨
        envHumidity (bme280_validate t h p).data = none) ∧
      (envPressure (bme280_validate t h p).data = some p ∨
        envPressure (bme280_validate t h p).data = none) ∧
      ((bme280_validate t h p).quality = Quality.Good ↔
        (envTemperature (bme280_validate t h p).data ≠ none ∧
         envHumidity (bme280_validate t h p).data ≠ none ∧
         envPressure (bme280_validate t h p).data ≠ none)) ∧
      ((bme280_validate t h p).quality = Quality.Good ∨
        (bme280_validate t h p).quality = Quality.Bad)) ∧
    bme280_validate 95 50 1013 =
      { sensor_type := SensorType.BME280,
        data := SensorData.Environmental none (some 50) (some 1013) none,
        timestamp := 0, quality := Quality.Bad } := by
  constructor
  · intro t h p
    by_cases h1 : (-40 : ℚ) ≤ t ∧ t ≤ 85 <;>
      by_cases h2 : (0 : ℚ) ≤ h ∧ h ≤ 100 <;>
        by_cases h3 : (300 : ℚ) ≤ p ∧ p ≤ 1100 <;>
          simp [bme280_validate, SensorReading.new, currentTimestamp,
            envTemperature, envHumidity, envPressure, h1, h2, h3]
  · decide

/-- Helper: folding the wrapping byte-sum equals the list sum modulo
256. -/
theorem foldl_mod_sum (l : List Nat) :
    ∀ a : Nat, l.foldl (fun c b => (c + b) % 256) (a % 256) = (a + l.sum) % 256 := by
  induction l with
  | nil => intro a; simp
  | cons x xs ih =>
    intro a
    simp only [List.foldl_cons, List.sum_cons]
    have h1 : (a % 256 + x) % 256 = (a + x) % 256 := by omega
    rw [h1, ih (a + x), Nat.add_assoc]

/-- Helper: the source checksum `(!sum).wrapping_add(1)` is the two's
complement of the byte sum modulo 256. -/
theorem me2co_checksum_eq (resp : List Nat) :
    me2co_checksum resp = (256 - ((resp.drop 1).take 7).sum % 256) % 256 := by
  have h := foldl_mod_sum ((resp.drop 1).take 7) 0
  simp only [Nat.zero_mod, Nat.zero_add] at h
  simp only [me2co_checksum, h]
  omega

/-- C3: the ME2-CO read of a collected response: fewer than 9 bytes is
`Timeout`; a header other than `{0xFF, 0x86}` is `InvalidData`; a
successful read carries the big-endian 16-bit value of bytes 2-3 scaled
by 0.1 ppm; the frame is rejected as `InvalidData` unless byte 8 equals
the two's complement of the sum of bytes 1-7 modulo 256, and also when
the scaled value exceeds 1000 ppm; and flipping any single byte in
positions 1-7 of a frame that validates makes validation fail. -/
theorem me2co_read_spec :
    (∀ resp : List Nat, resp.length < 9 → me2co_read resp = Except.error SensorError.Timeout) ∧
    (∀ resp : List Nat, 9 ≤ resp.length → (resp.getD 0 0 ≠ 255 ∨ resp.getD 1 0 ≠ 134) →
      me2co_read resp = Except.error SensorError.InvalidData) ∧
    (∀ (resp : List Nat) (r : SensorReading), me2co_read resp = Except.ok r →
      r = SensorReading.new SensorType.ME2CO
        (SensorData.Gas (some (((256 * resp.getD 2 0 + resp.getD 3 0 : Nat) : ℚ) * (1 / 10))) none none)
        Quality.Good) ∧
    (∀ resp : List Nat, 9 ≤ resp.length →
      (256 - ((resp.drop 1).take 7).sum % 256) % 256 ≠ resp.getD 8 0 →
      me2co_read resp = Except.error SensorError.InvalidData) ∧
    (∀ resp : List Nat, 9 ≤ resp.length →
      (1000 : ℚ) < ((256 * resp.getD 2 0 + resp.getD 3 0 : Nat) : ℚ) * (1 / 10) →
      me2co_read resp = Except.error SensorError.InvalidData) ∧
    (∀ a0 a1 a2 a3 a4 a5 a6 a7 a8 i b : Nat, ∀ r : SensorReading,
      a1 < 256 → a2 < 256 → a3 < 256 → a4 < 256 → a5 < 256 → a6 < 256 → a7 < 256 →
      me2co_read [a0, a1, a2, a3, a4, a5, a6, a7, a8] = Except.ok r →
      1 ≤ i → i ≤ 7 → b < 256 → b ≠ [a0, a1, a2, a3, a4, a5, a6, a7, a8].getD i 0 →
      me2co_read ([a0, a1, a2, a3, a4, a5, a6, a7, a8].set i b) =
        Except.error SensorError.InvalidData) := by
  refine ⟨fun resp h => ?_, fun resp h h2 => ?_, fun resp r h => ?_,
    fun resp h h2 => ?_, fun resp h h2 => ?_,
    fun a0 a1 a2 a3 a4 a5 a6 a7 a8 i b r h1 h2 h3 h4 h5 h6 h7 hok hi1 hi7 hb hne => ?_⟩
  · simp [me2co_read, h]
  · simp only [me2co_read]
    rw [if_neg (by omega), if_pos h2]
  · simp only [me2co_read] at h
    split_ifs at h with hc1 hc2 hc3 hc4
    simp only [Except.ok.injEq] at h
    exact h.symm
  · simp only [me2co_read]
    rw [if_neg (by omega)]
    split_ifs with hc1 hc2 hc3
    · rfl
    · rfl
    · rfl
    · exact absurd (me2co_checksum_eq resp ▸ not_not.mp hc2) h2
  · simp only [me2co_read]
    rw [if_neg (by omega)]
    split_ifs with hc1 hc2 hc3
    · rfl
    · rfl
    · rfl
    · exact absurd (Or.inr h2) hc3
  · -- byte-flip
    simp only [me2co_read, List.length_cons, List.length_nil] at hok
    rw [if_neg (by simp)] at hok
    split_ifs at hok with hh hcs hrange
    push_neg at hh
    obtain ⟨ha0, ha1⟩ := hh
    simp only [List.getD_cons_zero, List.getD_cons_succ] at ha0 ha1
    have hcseq := not_not.mp hcs
    simp only [me2co_checksum, List.drop_succ_cons, List.drop_zero, List.take_succ_cons,
      List.take_zero, List.foldl_cons, List.foldl_nil, List.getD_cons_zero,
      List.getD_cons_succ] at hcseq
    interval_cases i <;>
      simp only [List.getD_cons_zero, List.getD_cons_succ] at hne <;>
      simp only [List.set] <;>
      simp only [me2co_read, List.length_cons, List.length_nil, List.getD_cons_zero,
        List.getD_cons_succ]
    · rw [if_neg (by simp), if_pos (Or.inr (show b ≠ 134 by omega))]
    · rw [if_neg (by simp), if_neg (by simp [ha0, ha1]),
        if_pos (by
          simp only [me2co_checksum, List.drop_succ_cons, List.drop_zero, List.take_succ_cons,
            List.take_zero, List.foldl_cons, List.foldl_nil, List.getD_cons_zero,
            List.getD_cons_succ]
          omega)]
    · rw [if_neg (by simp), if_neg (by simp [ha0, ha1]),
        if_pos (by
          simp only [me2co_checksum, List.drop_succ_cons, List.drop_zero, List.take_succ_cons,
            List.take_zero, List.foldl_cons, List.foldl_nil, List.getD_cons_zero,
            List.getD_cons_succ]
          omega)]
    · rw [if_neg (by simp), if_neg (by simp [ha0, ha1]),
        if_pos (by
          simp only [me2co_checksum, List.drop_succ_cons, List.drop_zero, List.take_succ_cons,
            List.take_zero, List.foldl_cons, List.foldl_nil, List.getD_cons_zero,
            List.getD_cons_succ]
          omega)]
    · rw [if_neg (by simp), if_neg (by simp [ha0, ha1]),
        if_pos (by
          simp only [me2co_checksum, List.drop_succ_cons, List.drop_zero, List.take_succ_cons,
            List.take_zero, List.foldl_cons, List.foldl_nil, List.getD_cons_zero,
            List.getD_cons_succ]
          omega)]
    · rw [if_neg (by simp), if_neg (by simp [ha0, ha1]),
        if_pos (by
          simp only [me2co_checksum, List.drop_succ_cons, List.drop_zero, List.take_succ_cons,
            List.take_zero, List.foldl_cons, List.foldl_nil, List.getD_cons_zero,
            List.getD_cons_succ]
          omega)]
    · rw [if_neg (by simp), if_neg (by simp [ha0, ha1]),
        if_pos (by
          simp only [me2co_checksum, List.drop_succ_cons, List.drop_zero, List.take_succ_cons,
            List.take_zero, List.foldl_cons, List.foldl_nil, List.getD_cons_zero,
            List.getD_cons_succ]
          omega)]

deriving instance DecidableEq for Except

/-- Witness for C3: the frame `FF 86 00 32 00 00 00 00 48` validates
(5.0 ppm) and flipping byte 3 from 0x32 to 0x33 makes the read fail with
`InvalidData`. -/
theorem me2co_read_spec_witness :
    me2co_read ([255, 134, 0, 50, 0, 0, 0, 0, 72].set 3 51) =
      Except.error SensorError.InvalidData :=
  me2co_read_spec.2.2.2.2.2 255 134 0 50 0 0 0 0 72 3 51
    (SensorReading.new SensorType.ME2CO (SensorData.Gas (some 5) none none) Quality.Good)
    (by decide) (by decide) (by decide) (by decide) (by decide) (by decide) (by decide)
    (by
      have h : me2co_checksum [255, 134, 0, 50, 0, 0, 0, 0, 72] = 72 := by decide
      norm_num [me2co_read, h, SensorReading.new, currentTimestamp,
        List.getD_cons_zero, List.getD_cons_succ])
    (by decide) (by decide) (by decide) (by decide)

/-- C4: an 8-byte SDS011 payload is accepted exactly when the sum of
bytes 0-5 modulo 256 equals byte 6 and byte 7 is 0xAB; an invalid
candidate payload is discarded and scanning continues; an accepted
payload decodes pm2.5 and pm10 little-endian from bytes 0-1 and 2-3;
scanning ends in `Timeout` exactly when the 2 s deadline expires (fuel
runs out) or the stream is exhausted; and a decoded value at or above
1000 µg/m³ makes the read return `InvalidData`. -/
theorem sds011_frame_spec :
    (∀ b0 b1 b2 b3 b4 b5 b6 b7 : Nat,
      checksum_valid [b0, b1, b2, b3, b4, b5, b6, b7] = true ↔
        ((b0 + b1 + b2 + b3 + b4 + b5) % 256 = b6 ∧ b7 = 171)) ∧
    (∀ (fuel pos : Nat) (d rest : List Nat), 0 < pos → d.length = 8 →
      checksum_valid d = false →
      sds011_scan (fuel + 1) pos (some 170) (192 :: (d ++ rest)) =
        sds011_scan fuel ((pos + 1) % 100) (some 192) rest) ∧
    (∀ (fuel pos : Nat) (d rest : List Nat), 0 < pos → d.length = 8 →
      checksum_valid d = true →
      sds011_scan (fuel + 1) pos (some 170) (192 :: (d ++ rest)) =
        Except.ok (d.getD 0 0 + 256 * d.getD 1 0, d.getD 2 0 + 256 * d.getD 3 0)) ∧
    (∀ (pos : Nat) (prev : Option Nat) (stream : List Nat),
      sds011_scan 0 pos prev stream = Except.error SensorError.Timeout) ∧
    (∀ (fuel pos : Nat) (prev : Option Nat),
      sds011_scan fuel pos prev [] = Except.error SensorError.Timeout) ∧
    (∀ (s : Sds011State) (now : Nat) (start : Except SensorError Unit) (r25 r10 : Nat),
      s.initialized = true → s.error_count < 5 →
      (s.is_running = true ∨ start = Except.ok ()) →
      (10000 ≤ r25 ∨ 10000 ≤ r10) →
      (sds011_read s now start (Except.ok (r25, r10))).2 =
        Except.error SensorError.InvalidData) := by
  have hdiv : ∀ n : Nat, ((n : ℚ) / 10 < 1000 ↔ n < 10000) := by
    intro n
    rw [div_lt_iff₀ (by norm_num)]
    exact_mod_cast Iff.rfl
  refine ⟨fun b0 b1 b2 b3 b4 b5 b6 b7 => ?_, fun fuel pos d rest hpos hlen hcs => ?_,
    fun fuel pos d rest hpos hlen hcs => ?_, fun pos prev stream => rfl,
    fun fuel pos prev => ?_, fun s now start r25 r10 hinit hcount hrun hrange => ?_⟩
  · simp only [checksum_valid, show List.range 6 = [0, 1, 2, 3, 4, 5] from rfl,
      List.map_cons, List.map_nil, List.foldl_cons, List.foldl_nil,
      List.getD_cons_zero, List.getD_cons_succ, Bool.and_eq_true, decide_eq_true_eq]
    constructor
    · rintro ⟨x, y⟩
      exact ⟨by omega, x⟩
    · rintro ⟨x, y⟩
      exact ⟨y, by omega⟩
  · have ht : (d ++ rest).take 8 = d := by rw [← hlen, List.take_left]
    have hd : (d ++ rest).drop 8 = rest := by rw [← hlen, List.drop_left]
    have hnl : ¬ ((d ++ rest).length < 8) := by
      simp [hlen]
    simp only [sds011_scan, ht, hd]
    rw [if_pos ⟨hpos, trivial, trivial⟩, if_neg hnl]
    simp [hcs]
  · have ht : (d ++ rest).take 8 = d := by rw [← hlen, List.take_left]
    have hnl : ¬ ((d ++ rest).length < 8) := by
      simp [hlen]
    simp only [sds011_scan, ht]
    rw [if_pos ⟨hpos, trivial, trivial⟩, if_neg hnl, if_pos hcs]
    rw [List.getD_append _ _ _ _ (by omega), List.getD_append _ _ _ _ (by omega),
      List.getD_append _ _ _ _ (by omega), List.getD_append _ _ _ _ (by omega)]
  · cases fuel <;> rfl
  · have hnot : ¬ ((0 : ℚ) ≤ (r25 : ℚ) / 10 ∧ (r25 : ℚ) / 10 < 1000 ∧
        (0 : ℚ) ≤ (r10 : ℚ) / 10 ∧ (r10 : ℚ) / 10 < 1000) := by
      rcases hrange with hr | hr
      · intro hc
        have := (hdiv r25).mp hc.2.1
        omega
      · intro hc
        have := (hdiv r10).mp hc.2.2.2
        omega
    simp only [sds011_read, hinit, Bool.true_eq_false, if_false]
    have hgate : sds011_gate s now = some s := by
      simp [sds011_gate, Nat.not_le.mpr hcount]
    rw [hgate]
    rcases hrun with hrun | hrun
    · simp only [hrun, if_true]
      rw [if_neg hnot]
    · by_cases hr2 : s.is_running = true
      · simp only [hr2, if_true]
        rw [if_neg hnot]
      · simp only [Bool.not_eq_true] at hr2
        simp only [hr2, Bool.false_eq_true, if_false, hrun]
        rw [if_neg hnot]

/-- Witness for C4: a payload with a wrong checksum byte is discarded and
scanning continues with the remaining stream. -/
theorem sds011_frame_spec_witness :
    sds011_scan 1 1 (some 170) (192 :: ([1, 0, 2, 0, 0, 0, 99, 171] ++ [])) =
      sds011_scan 0 2 (some 192) [] :=
  sds011_frame_spec.2.1 0 1 [1, 0, 2, 0, 0, 0, 99, 171] [] (by decide) (by decide) (by decide)

/-- Helper: the decoded pm value `raw / 10` is below the 1000 µg/m³
bound exactly when the raw value is below 10000. -/
theorem pm_div_lt (n : Nat) : ((n : ℚ) / 10 < 1000 ↔ n < 10000) := by
  rw [div_lt_iff₀ (by norm_num)]
  exact_mod_cast Iff.rfl

/-- C6: the SDS011 read applies the error-count gate first: with at
least 5 accumulated errors and under 60 s since the last recorded error
it returns `Timeout` immediately, whatever the bus would do; with 60 s
elapsed it behaves exactly like the read from the reset state (counter 0,
no last error); a successful in-range read resets the counter to 0; and
every failing read (start failure, measurement error, or out-of-range
data) increments the counter and records the failure timestamp. -/
theorem sds011_error_gate_spec :
    (∀ (s : Sds011State) (now t : Nat) (start : Except SensorError Unit)
        (meas : Except SensorError (Nat × Nat)),
      s.initialized = true → 5 ≤ s.error_count → s.last_error_time = some t →
      now - t < 60000 →
      sds011_read s now start meas = (s, Except.error SensorError.Timeout)) ∧
    (∀ (s : Sds011State) (now t : Nat) (start : Except SensorError Unit)
        (meas : Except SensorError (Nat × Nat)),
      s.initialized = true → 5 ≤ s.error_count → s.last_error_time = some t →
      60000 ≤ now - t →
      sds011_read s now start meas =
        sds011_read { s with error_count := 0, last_error_time := none } now start meas) ∧
    (∀ (s : Sds011State) (now : Nat) (start : Except SensorError Unit) (r25 r10 : Nat),
      s.initialized = true → s.error_count < 5 →
      (s.is_running = true ∨ start = Except.ok ()) →
      r25 < 10000 → r10 < 10000 →
      (sds011_read s now start (Except.ok (r25, r10))).1.error_count = 0 ∧
      (∃ r, (sds011_read s now start (Except.ok (r25, r10))).2 = Except.ok r)) ∧
    (∀ (s : Sds011State) (now : Nat) (e : SensorError)
        (meas : Except SensorError (Nat × Nat)),
      s.initialized = true → s.error_count < 5 → s.is_running = false →
      (sds011_read s now (Except.error e) meas).1.error_count = s.error_count + 1 ∧
      (sds011_read s now (Except.error e) meas).1.last_error_time = some now ∧
      (sds011_read s now (Except.error e) meas).2 = Except.error e) ∧
    (∀ (s : Sds011State) (now : Nat) (start : Except SensorError Unit) (e : SensorError),
      s.initialized = true → s.error_count < 5 →
      (s.is_running = true ∨ start = Except.ok ()) →
      (sds011_read s now start (Except.error e)).1.error_count = s.error_count + 1 ∧
      (sds011_read s now start (Except.error e)).1.last_error_time = some now ∧
      (sds011_read s now start (Except.error e)).2 = Except.error e) ∧
    (∀ (s : Sds011State) (now : Nat) (start : Except SensorError Unit) (r25 r10 : Nat),
      s.initialized = true → s.error_count < 5 →
      (s.is_running = true ∨ start = Except.ok ()) →
      (10000 ≤ r25 ∨ 10000 ≤ r10) →
      (sds011_read s now start (Except.ok (r25, r10))).1.error_count = s.error_count + 1 ∧
      (sds011_read s now start (Except.ok (r25, r10))).1.last_error_time = some now) := by
  refine ⟨fun s now t start meas hinit hcount hlast hel => ?_,
    fun s now t start meas hinit hcount hlast hel => ?_,
    fun s now start r25 r10 hinit hcount hrun hr25 hr10 => ?_,
    fun s now e meas hinit hcount hrunf => ?_,
    fun s now start e hinit hcount hrun => ?_,
    fun s now start r25 r10 hinit hcount hrun hrange => ?_⟩
  · have hgate : sds011_gate s now = none := by
      simp [sds011_gate, hcount, hlast, hel]
    simp only [sds011_read, hinit, Bool.true_eq_false, if_false, hgate]
  · have hgate : sds011_gate s now =
        some { s with error_count := 0, last_error_time := none } := by
      simp [sds011_gate, hcount, hlast, Nat.not_lt.mpr hel]
    simp only [sds011_read, hinit, Bool.true_eq_false, if_false, hgate]
    have hgate2 : sds011_gate ⟨true, s.is_running, 0, none⟩ now =
        some (⟨true, s.is_running, 0, none⟩ : Sds011State) := by
      simp [sds011_gate]
    rw [hgate2]
  · have hgate : sds011_gate s now = some s := by
      simp [sds011_gate, Nat.not_le.mpr hcount]
    have hpos : (0 : ℚ) ≤ (r25 : ℚ) / 10 ∧ (r25 : ℚ) / 10 < 1000 ∧
        (0 : ℚ) ≤ (r10 : ℚ) / 10 ∧ (r10 : ℚ) / 10 < 1000 :=
      ⟨by positivity, (pm_div_lt r25).mpr hr25, by positivity, (pm_div_lt r10).mpr hr10⟩
    simp only [sds011_read, hinit, Bool.true_eq_false, if_false, hgate]
    rcases hrun with hrun | hrun
    · simp only [hrun, if_true]
      rw [if_pos hpos]
      exact ⟨rfl, ⟨_, rfl⟩⟩
    · by_cases hr2 : s.is_running = true
      · simp only [hr2, if_true]
        rw [if_pos hpos]
        exact ⟨rfl, ⟨_, rfl⟩⟩
      · simp only [Bool.not_eq_true] at hr2
        simp only [hr2, Bool.false_eq_true, if_false, hrun]
        rw [if_pos hpos]
        exact ⟨rfl, ⟨_, rfl⟩⟩
  · have hgate : sds011_gate s now = some s := by
      simp [sds011_gate, Nat.not_le.mpr hcount]
    simp only [sds011_read, hinit, Bool.true_eq_false, if_false, hgate, hrunf]
    refine ⟨?_, ?_, ?_⟩ <;> simp
  · have hgate : sds011_gate s now = some s := by
      simp [sds011_gate, Nat.not_le.mpr hcount]
    simp only [sds011_read, hinit, Bool.true_eq_false, if_false, hgate]
    rcases hrun with hrun | hrun
    · simp only [hrun, if_true]
      refine ⟨?_, ?_, ?_⟩ <;> simp
    · by_cases hr2 : s.is_running = true
      · simp only [hr2, if_true]
        refine ⟨?_, ?_, ?_⟩ <;> simp
      · simp only [Bool.not_eq_true] at hr2
        simp only [hr2, Bool.false_eq_true, if_false, hrun]
        refine ⟨?_, ?_, ?_⟩ <;> simp
  · have hgate : sds011_gate s now = some s := by
      simp [sds011_gate, Nat.not_le.mpr hcount]
    have hnot : ¬ ((0 : ℚ) ≤ (r25 : ℚ) / 10 ∧ (r25 : ℚ) / 10 < 1000 ∧
        (0 : ℚ) ≤ (r10 : ℚ) / 10 ∧ (r10 : ℚ) / 10 < 1000) := by
      rcases hrange with hr | hr
      · intro hc
        have := (pm_div_lt r25).mp hc.2.1
        omega
      · intro hc
        have := (pm_div_lt r10).mp hc.2.2.2
        omega
    simp only [sds011_read, hinit, Bool.true_eq_false, if_false, hgate]
    rcases hrun with hrun | hrun
    · simp only [hrun, if_true]
      rw [if_neg hnot]
      refine ⟨?_, ?_⟩ <;> simp
    · by_cases hr2 : s.is_running = true
      · simp only [hr2, if_true]
        rw [if_neg hnot]
        refine ⟨?_, ?_⟩ <;> simp
      · simp only [Bool.not_eq_true] at hr2
        simp only [hr2, Bool.false_eq_true, if_false, hrun]
        rw [if_neg hnot]
        refine ⟨?_, ?_⟩ <;> simp

/-- Witness for C6: an initialized state with 5 accumulated errors and a
last error 1 s ago short-circuits with `Timeout` leaving the state
untouched, whatever the bus would have returned. -/
theorem sds011_error_gate_spec_witness :
    sds011_read ⟨true, true, 5, some 0⟩ 1000 (Except.ok ()) (Except.ok (100, 100)) =
      ((⟨true, true, 5, some 0⟩ : Sds011State), Except.error SensorError.Timeout) :=
  sds011_error_gate_spec.1 _ 1000 0 _ _ rfl (by decide) rfl (by decide)

/-- Integer companion of `compensate_pressure`: the final Q24.8 pressure
word `p`, taken as 0 when the zero-guard fires. -/
def compensate_pressure_int (c : Bme280Calib) (tFine : Int) (adc_p : Nat) : Int :=
  let v1 : Int := wrap64 (tFine - 128000)
  let v2 : Int := wrap64 (v1 * v1 * c.digP6)
  let v2 : Int := wrap64 (v2 + wrap64 (v1 * c.digP5 * 2 ^ 17))
  let v2 : Int := wrap64 (v2 + wrap64 (c.digP4 * 2 ^ 35))
  let v1 : Int := wrap64 (sar (wrap64 (v1 * v1 * c.digP3)) 8 + wrap64 (v1 * c.digP2 * 2 ^ 12))
  let v1 : Int := sar (wrap64 ((2 ^ 47 + v1) * c.digP1)) 33
  if v1 = 0 then 0
  else
    let p : Int := wrap64 (1048576 - (adc_p : Int))
    let p : Int := Int.tdiv (wrap64 ((wrap64 (p * 2 ^ 31) - v2) * 3125)) v1
    let v1f : Int := sar (wrap64 (c.digP9 * sar p 13 * sar p 13)) 25
    let v2f : Int := sar (wrap64 (c.digP8 * p)) 19
    wrap64 (sar (wrap64 (p + v1f + v2f)) 8 + wrap64 (c.digP7 * 2 ^ 4))

/-- Helper: `compensate_pressure` is its integer companion divided by
25600. -/
theorem compensate_pressure_as_int (c : Bme280Calib) (tFine : Int) (adc_p : Nat) :
    compensate_pressure c tFine adc_p =
      ((compensate_pressure_int c tFine adc_p : Int) : ℚ) / 25600 := by
  simp only [compensate_pressure, compensate_pressure_int]
  split_ifs with h
  · norm_num
  · rfl

/-- Integer companion of `compensate_humidity`: the clamped intermediate
shifted right by 12, taken as 0 when `v_x1_u32r` is zero. -/
def compensate_humidity_int (c : Bme280Calib) (tFine : Int) (adc_h : Nat) : Int :=
  if wrap32 (tFine - 76800) = 0 then 0 else sar (humidity_intermediate c tFine adc_h) 12

/-- Helper: `compensate_humidity` is its integer companion divided by
1024. -/
theorem compensate_humidity_as_int (c : Bme280Calib) (tFine : Int) (adc_h : Nat) :
    compensate_humidity c tFine adc_h =
      ((compensate_humidity_int c tFine adc_h : Int) : ℚ) / 1024 := by
  simp only [compensate_humidity, compensate_humidity_int]
  split_ifs with h
  · norm_num
  · rfl

/-- C1: the compensation functions do not implement the Bosch reference
algorithm for every calibration assignment.  At a typical operating point
(`t_fine = 128422`, `adc_H = 32768`, representative humidity calibration)
the code's rewritten humidity formula yields 0 %RH where the Bosch
reference yields 61577/1024 ≈ 60.1 %RH; and for the legal calibration
word `dig_T1 = 40000` the code's 16-bit shift of `dig_t1` wraps, yielding
127.20 °C where the Bosch reference yields -38.02 °C.  Temperature and
pressure do reproduce the Bosch datasheet reference example
(`25.08 °C`, `25767233/256 = 100653.25 Pa`). -/
theorem bme280_compensation_diverges :
    compensate_humidity refCalib 128422 32768 = 0 ∧
    bosch_compensate_humidity refCalib 128422 32768 = 61577 / 1024 ∧
    compensate_humidity refCalib 128422 32768 ≠
      bosch_compensate_humidity refCalib 128422 32768 ∧
    compensate_temperature refCalibT40000 519888 = (651283, 12720) ∧
    bosch_compensate_temperature refCalibT40000 519888 = (-194637, -3802) ∧
    compensate_temperature refCalib 519888 = (128422, 2508) ∧
    bosch_compensate_temperature refCalib 519888 = (128422, 2508) ∧
    compensate_pressure refCalib 128422 415148 = 25767233 / 25600 := by
  have hh : compensate_humidity_int refCalib 128422 32768 = 0 := by decide
  have hh2 : bosch_compensate_humidity_int refCalib 128422 32768 = 61577 := by decide
  have hp : compensate_pressure_int refCalib 128422 415148 = 25767233 := by decide
  have e1 : compensate_humidity refCalib 128422 32768 = 0 := by
    rw [compensate_humidity_as_int, hh]
    norm_num
  have e2 : bosch_compensate_humidity refCalib 128422 32768 = 61577 / 1024 := by
    rw [bosch_compensate_humidity, hh2]
    norm_num
  refine ⟨e1, e2, ?_, by decide, by decide, by decide, by decide, ?_⟩
  · rw [e1, e2]
    norm_num
  · rw [compensate_pressure_as_int, hp]
    norm_num

/-- The compensation stage computes temperature first and threads its
`t_fine` into both the pressure and humidity compensations of the same
read. -/
theorem bme280_tfine_shared (c : Bme280Calib) (data : List Nat) :
    read_compensated_data c data =
      (((compensate_temperature c (raw_temp data)).2 : ℚ) / 100,
       compensate_humidity c (compensate_temperature c (raw_temp data)).1 (raw_hum data),
       compensate_pressure c (compensate_temperature c (raw_temp data)).1 (raw_press data)) :=
  rfl

/-- The pressure compensation returns 0.0 whenever its denominator
`var1` is zero, instead of dividing. -/
theorem bme280_pressure_zero_guard (c : Bme280Calib) (tFine : Int) (adc_p : Nat)
    (h : pressure_var1 c tFine = 0) : compensate_pressure c tFine adc_p = 0 := by
  simp only [pressure_var1] at h
  simp only [compensate_pressure]
  rw [if_pos h]

/-- Helper: bounds of the humidity clamp of bme280.rs
`compensate_humidity`. -/
theorem clamp_bounds (x : Int) :
    0 ≤ (if (if x < 0 then 0 else x) > 419430400 then 419430400
      else (if x < 0 then 0 else x)) ∧
    (if (if x < 0 then 0 else x) > 419430400 then 419430400
      else (if x < 0 then 0 else x)) ≤ 419430400 := by
  split_ifs <;> omega

/-- The humidity intermediate result is clamped to [0, 419430400] before
the final `>> 12` scaling (degenerately so in the `v_x1_u32r = 0` early
return, whose result 0 is the scaling of 0). -/
theorem bme280_humidity_clamped (c : Bme280Calib) (tFine : Int) (adc_h : Nat) :
    ∃ hf : Int, 0 ≤ hf ∧ hf ≤ 419430400 ∧
      compensate_humidity c tFine adc_h = ((sar hf 12 : Int) : ℚ) / 1024 := by
  by_cases h : wrap32 (tFine - 76800) = 0
  · refine ⟨0, le_refl 0, by norm_num, ?_⟩
    simp only [compensate_humidity, h, if_true]
    norm_num [sar]
  · refine ⟨humidity_intermediate c tFine adc_h, ?_, ?_, by simp [compensate_humidity, h]⟩
    · simp only [humidity_intermediate]
      exact (clamp_bounds _).1
    · simp only [humidity_intermediate]
      exact (clamp_bounds _).2

/-- The temperature compensation agrees with the Bosch reference for
every calibration with `dig_T1 < 32768` (the 16-bit shift then does not
wrap). -/
theorem bme280_temperature_matches_bosch (c : Bme280Calib) (adc_t : Nat)
    (h0 : 0 ≤ c.digT1) (h1 : c.digT1 < 32768) :
    compensate_temperature c adc_t = bosch_compensate_temperature c adc_t := by
  simp only [compensate_temperature, bosch_compensate_temperature]
  have e1 : (2 * c.digT1) % 65536 = 2 * c.digT1 := Int.emod_eq_of_lt (by omega) (by omega)
  have e2 : wrap32 (2 * c.digT1) = 2 * c.digT1 := by
    unfold wrap32
    omega
  rw [e1, e2]

/-- The pressure compensation is exactly the Bosch reference 64-bit
algorithm. -/
theorem bme280_pressure_is_bosch : compensate_pressure = bosch_compensate_pressure := rfl
